import Mathlib

/-!
Verification development for the purchase-analysis pipeline in
`app_scoring.py` (r2flows/pharma-bonds-oportunities).

The Python source is shallowly embedded here:
pandas DataFrames become lists of typed rows, float columns that may hold
NaN become `Option ℚ` (with `none` standing for NaN and the IEEE rules
"NaN compares false" modelled explicitly), and the pipeline steps become
pure Lean functions following the source line by line.
-/

namespace AppScoring

/-! ### NaN-aware scalar operations

Python float semantics used by the classifier: any comparison with NaN is
false, and `Series.min()` skips NaN entries (returning NaN only when every
entry is NaN). `none` models NaN. -/

/-- Strict less-than on possibly-NaN values: false whenever a side is NaN. -/
def ltOpt : Option ℚ → Option ℚ → Bool
  | some a, some b => decide (a < b)
  | _, _ => false

/-- Equality test on possibly-NaN values: false whenever a side is NaN
(in particular NaN == NaN is false, as in Python). -/
def eqOpt : Option ℚ → Option ℚ → Bool
  | some a, some b => decide (a = b)
  | _, _ => false

/-- Minimum of a list of possibly-NaN values, skipping NaN entries, as
pandas `Series.min()` does; NaN when no non-NaN entry exists. -/
def minOptList (l : List (Option ℚ)) : Option ℚ :=
  match l.filterMap id with
  | [] => none
  | x :: xs => some (xs.foldl min x)

/-! ### The geo-zone resolver `obtener_geo_zone` (lines 69-74)

The Python code is `partes = address.split(', ')` followed by
`', '.join(partes[-2:-1])`. Strings are modelled as `List Char`;
`splitCS` is Python's `str.split(', ')`: it cuts the string at every
non-overlapping occurrence of the two-character separator `", "`,
scanning left to right. -/

/-- Prepends a character to the first piece of a split result
(helper for `splitCS`). -/
def consHead (c : Char) : List (List Char) → List (List Char)
  | [] => [[c]]
  | h :: t => (c :: h) :: t

/-- Python `str.split(', ')` on a list of characters. -/
def splitCS : List Char → List (List Char)
  | [] => [[]]
  | [c] => [[c]]
  | c :: d :: rest =>
    if c = ',' ∧ d = ' ' then [] :: splitCS rest
    else consHead c (splitCS (d :: rest))

/-- Python `', '.join` on a list of character lists. -/
def joinCS : List (List Char) → List Char
  | [] => []
  | [s] => s
  | s :: rest => s ++ ',' :: ' ' :: joinCS rest

/-- Whether the separator `", "` occurs somewhere in the string. -/
def containsSep : List Char → Bool
  | [] => false
  | [_] => false
  | c :: d :: rest => decide (c = ',' ∧ d = ' ') || containsSep (d :: rest)

/-- Python slice `l[-2:-1]`: the singleton holding the second-to-last
element when the list has at least two elements, else empty. -/
def sliceSecondToLast (l : List (List Char)) : List (List Char) :=
  if h : 2 ≤ l.length then [l.get ⟨l.length - 2, by omega⟩] else []

/-- Embedding of `obtener_geo_zone` (app_scoring.py lines 69-74):
split the address on `", "` and join the `[-2:-1]` slice back. -/
def obtener_geo_zone (address : List Char) : List Char :=
  let partes := splitCS address
  joinCS (sliceSecondToLast partes)

/-- Strips leading and trailing spaces (used only to state that resolver
results need no further trimming). -/
def trimChars (l : List Char) : List Char :=
  ((l.dropWhile (· = ' ')).reverse.dropWhile (· = ' ')).reverse

/-! ### Abbreviation table (app_scoring.py lines 392-405)

The dict `abreviaturas` is applied to the extracted zones with
`Series.replace`, which substitutes a value only when it is exactly equal
to a key of the table. -/

/-- Embedding of the `abreviaturas` dict, in source order. -/
def abreviaturas : List (String × String) :=
  [("B.C.S.", "Baja California Sur"), ("Qro.", "Querétaro"), ("Jal.", "Jalisco"),
   ("Pue.", "Puebla"), ("Méx.", "CDMX"), ("Oax.", "Oaxaca"), ("Chih.", "Chihuahua"),
   ("Coah.", "Coahuila de Zaragoza"), ("Mich.", "Michoacán de Ocampo"),
   ("Ver.", "Veracruz de Ignacio de la Llave"), ("Chis.", "Chiapas"),
   ("N.L.", "Nuevo León"), ("Hgo.", "Hidalgo"), ("Tlax.", "Tlaxcala"),
   ("Tamps.", "Tamaulipas"), ("Yuc.", "Yucatan"), ("Mor.", "Morelos"),
   ("Sin.", "Sinaloa"), ("S.L.P.", "San Luis Potosí"), ("Q.R.", "Quintana Roo"),
   ("Dgo.", "Durango"), ("B.C.", "Baja California"), ("Gto.", "Guanajuato"),
   ("Camp.", "Campeche"), ("Tab.", "Tabasco"), ("Son.", "Sonora"),
   ("Gro.", "Guerrero"), ("Zac.", "Zacatecas"), ("Ags.", "Aguascalientes"),
   ("Nay.", "Nayarit")]

/-- Embedding of `Series.replace(abreviaturas)` on one zone value: exact
whole-string replacement, unmatched values pass through unchanged. -/
def reemplazar_abreviatura (z : String) : String :=
  match abreviaturas.find? (fun p => decide (p.1 = z)) with
  | some p => p.2
  | none => z

/-! ### The classifier `agregar_columna_clasificacion` (lines 89-126)

The function is generic over any frame that carries the four columns
`order_id`, `super_catalog_id`, `precio_minimo`, `precio_vendedor`
(lines 100-105 check exactly these), so it is embedded generically over a
row type exposing them. The price columns may hold NaN. -/

/-- The four columns the classifier reads (line 100). -/
class ClasifCols (α : Type) where
  order_id : α → ℤ
  super_catalog_id : α → ℤ
  precio_minimo : α → Option ℚ
  precio_vendedor : α → Option ℚ

/-- Result of `agregar_columna_clasificacion`: either the frame unchanged
with no `clasificacion` column (the empty-input early return at line 93),
or every row paired with its `clasificacion` value. -/
inductive ClasifDF (α : Type) where
  | sinClasif (rows : List α)
  | conClasif (rows : List (α × String))
deriving DecidableEq

/-- The grouping key of line 107: `(order_id, super_catalog_id)`. -/
def clave [ClasifCols α] (r : α) : ℤ × ℤ :=
  (ClasifCols.order_id r, ClasifCols.super_catalog_id r)

/-- Per-row classification rule of lines 115-124, given the group's
reference incumbent price and the group's minimum vendor price. -/
def clasificar (precio_minimo min_precio_vendedor precio_vendedor : Option ℚ) :
    String :=
  if ltOpt precio_minimo precio_vendedor then "Precio droguería minimo"
  else if eqOpt precio_vendedor min_precio_vendedor then "Precio vendor minimo"
  else "Precio vendor no minimo"

/-- One iteration of the loop at lines 109-124: for the group of key `k`,
compute `precio_minimo = group['precio_minimo'].iloc[0]` (the FIRST row of
the group, line 110) and `min_precio_vendedor = group['precio_vendedor'].min()`
(line 111), then write the classification of every row of the group. -/
def asignar_grupo [ClasifCols α] (rows : List α) (acc : List (α × String))
    (k : ℤ × ℤ) : List (α × String) :=
  let g := rows.filter (fun r => decide (clave r = k))
  let precio_minimo : Option ℚ :=
    match g with
    | [] => none
    | r :: _ => ClasifCols.precio_minimo r
  let min_precio_vendedor := minOptList (g.map ClasifCols.precio_vendedor)
  acc.map (fun p =>
    if clave p.1 = k then
      (p.1, clasificar precio_minimo min_precio_vendedor
        (ClasifCols.precio_vendedor p.1))
    else p)

/-- Embedding of `agregar_columna_clasificacion` (lines 89-126): empty
frames are returned as-is (line 93); otherwise a `clasificacion` column is
initialised to `""` (line 97) and the groupby loop fills it in. Group
iteration order is immaterial because each row is written exactly once. -/
def agregar_columna_clasificacion [ClasifCols α] (rows : List α) : ClasifDF α :=
  if rows.isEmpty then ClasifDF.sinClasif rows
  else ClasifDF.conClasif
    (((rows.map clave).dedup).foldl (asignar_grupo rows)
      (rows.map (fun r => (r, ""))))

/-- The group a row belongs to: all rows sharing its
`(order_id, super_catalog_id)` key, in frame order. -/
def grupo [ClasifCols α] (rows : List α) (r : α) : List α :=
  rows.filter (fun x => decide (clave x = clave r))

/-- Line 110 — `group['precio_minimo'].iloc[0]`: the `precio_minimo` of
the FIRST row of a group. -/
def primer_precio_minimo [ClasifCols α] (g : List α) : Option ℚ :=
  match g with
  | [] => none
  | x :: _ => ClasifCols.precio_minimo x

/-- The classification a row receives: computed from the first
`precio_minimo` of its group and the NaN-skipping minimum of the group's
`precio_vendedor`. -/
def clasificar_fila [ClasifCols α] (rows : List α) (r : α) : String :=
  clasificar (primer_precio_minimo (grupo rows r))
    (minOptList ((grupo rows r).map ClasifCols.precio_vendedor))
    (ClasifCols.precio_vendedor r)

/-! ### Input row types (per the CSV contracts consumed at lines 368-378) -/

/-- A `pos_address.csv` row. -/
structure PosAddress where
  point_of_sale_id : ℤ
  address : String
  country : String
deriving DecidableEq

/-- An `orders_delivered_pos_vendor_geozone.csv` row (any pre-existing
`geo_zone` column is dropped at lines 384-385 before the zone join, so it
is not modelled). -/
structure Pedido where
  point_of_sale_id : ℤ
  order_id : ℤ
  super_catalog_id : ℤ
  unidades_pedidas : ℚ
  precio_minimo : Option ℚ
  vendor_id : ℤ
deriving DecidableEq

/-- A `vendors_catalog.csv` row before normalisation: `percentage` may be
NaN. -/
structure ProveedorRaw where
  vendor_id : ℤ
  name : String
  super_catalog_id : ℤ
  base_price : ℚ
  percentage : Option ℚ
deriving DecidableEq

/-- A catalog row after `percentage` has been filled. -/
structure Proveedor where
  vendor_id : ℤ
  name : String
  super_catalog_id : ℤ
  base_price : ℚ
  percentage : ℚ
deriving DecidableEq

/-- A `vendor_pos_relations.csv` row. -/
structure VendorPosRel where
  vendor_id : ℤ
  point_of_sale_id : ℤ
  status : ℤ
deriving DecidableEq

/-- A `vendors_dm.csv` row (after the `client_id` → `vendor_id` rename in
`load_vendors_dm`). -/
structure VendorDM where
  vendor_id : ℤ
  name : String
  drug_manufacturer_id : ℤ
deriving DecidableEq

/-- A `minimum_purchase.csv` row. -/
structure MinPurchaseRow where
  vendor_id : ℤ
  name : String
  min_purchase : ℚ
deriving DecidableEq

/-! ### Geo zones and the catalog splitter (lines 381-409) -/

/-- Lines 381, 389, 405: extract `geo_zone` from each address with
`obtener_geo_zone` and normalise abbreviations with `Series.replace`. -/
def pos_geo_zones (pa : List PosAddress) : List (ℤ × String) :=
  pa.map (fun r =>
    (r.point_of_sale_id, reemplazar_abreviatura ⟨obtener_geo_zone r.address.data⟩))

/-- Line 388: `df_proveedores['percentage'].fillna(0)` on one row. -/
def fillna_percentage (p : ProveedorRaw) : Proveedor :=
  ⟨p.vendor_id, p.name, p.super_catalog_id, p.base_price, p.percentage.getD 0⟩

/-- The whole catalog after the `fillna` of line 388. -/
def df_proveedores_fillna (l : List ProveedorRaw) : List Proveedor :=
  l.map fillna_percentage

/-- Line 408: rows whose `name` equals the sentinel `"México"`. -/
def df_proveedores_nacional (l : List Proveedor) : List Proveedor :=
  l.filter (fun p => decide (p.name = "México"))

/-- Line 409: all other rows. -/
def df_proveedores_regional (l : List Proveedor) : List Proveedor :=
  l.filter (fun p => decide (p.name ≠ "México"))

/-! ### The enrichment joins (lines 412-448)

With contract-conforming inputs both the orders and the catalog carry a
`vendor_id` column, so the pandas merges suffix them to `vendor_id_x`
(the incumbent distributor from the order) and `vendor_id_y` (the catalog
candidate); the shared join key `super_catalog_id` is kept once. -/

/-- An order line joined with its resolved geo zone (line 412, a left
join: `none` when the point of sale has no address row). -/
structure PedidoZona where
  pedido : Pedido
  geo_zone : Option String
deriving DecidableEq

/-- Lines 412-413: left-join orders to `pos_geo_zones` on
`point_of_sale_id` and keep only lines with `unidades_pedidas > 0`. -/
def df_pedidos_zonas (pedidos : List Pedido) (zonas : List (ℤ × String)) :
    List PedidoZona :=
  (pedidos.flatMap (fun p =>
    match zonas.filter (fun z => decide (z.1 = p.point_of_sale_id)) with
    | [] => [⟨p, none⟩]
    | ms => ms.map (fun z => ⟨p, some z.2⟩))).filter
    (fun pz => decide (0 < pz.pedido.unidades_pedidas))

/-- A candidate-offer row: one order line paired with one admissible
catalog vendor, with the unit sell price of lines 433-436 already
computed (`precio_vendedor = base_price + base_price * percentage / 100`). -/
structure CandidateRow where
  point_of_sale_id : ℤ
  order_id : ℤ
  super_catalog_id : ℤ
  unidades_pedidas : ℚ
  precio_minimo : Option ℚ
  vendor_id_x : ℤ
  geo_zone : Option String
  vendor_id_y : ℤ
  name : String
  base_price : ℚ
  percentage : ℚ
  precio_vendedor : ℚ
deriving DecidableEq

/-- Builds the joined row for one (order line, catalog entry) pair,
including the price derivation of line 436. -/
def mkCandidate (q : PedidoZona) (c : Proveedor) : CandidateRow where
  point_of_sale_id := q.pedido.point_of_sale_id
  order_id := q.pedido.order_id
  super_catalog_id := q.pedido.super_catalog_id
  unidades_pedidas := q.pedido.unidades_pedidas
  precio_minimo := q.pedido.precio_minimo
  vendor_id_x := q.pedido.vendor_id
  geo_zone := q.geo_zone
  vendor_id_y := c.vendor_id
  name := c.name
  base_price := c.base_price
  percentage := c.percentage
  precio_vendedor := c.base_price + c.base_price * c.percentage / 100

/-- Lines 416-421: inner join of the zone-enriched orders with the
national catalog on `super_catalog_id` only, re-filtered on
`unidades_pedidas > 0`. -/
def df_pedidos_proveedores_nacional (pz : List PedidoZona)
    (cat : List Proveedor) : List CandidateRow :=
  (pz.flatMap (fun q =>
    (cat.filter (fun c =>
      decide (c.super_catalog_id = q.pedido.super_catalog_id))).map
      (mkCandidate q))).filter
    (fun r => decide (0 < r.unidades_pedidas))

/-- Lines 423-430: inner join of the zone-enriched orders with the
regional catalog on `(super_catalog_id, geo_zone = name)`, re-filtered on
`unidades_pedidas > 0`. -/
def df_pedidos_proveedores_regional (pz : List PedidoZona)
    (cat : List Proveedor) : List CandidateRow :=
  (pz.flatMap (fun q =>
    (cat.filter (fun c =>
      decide (c.super_catalog_id = q.pedido.super_catalog_id ∧
        q.geo_zone = some c.name))).map
      (mkCandidate q))).filter
    (fun r => decide (0 < r.unidades_pedidas))

/-- Lines 388-441: the unified candidate-offer table, regional rows first,
then national (line 439). -/
def df_pedidos_proveedores (pedidos : List Pedido) (zonas : List (ℤ × String))
    (catRaw : List ProveedorRaw) : List CandidateRow :=
  df_pedidos_proveedores_regional (df_pedidos_zonas pedidos zonas)
      (df_proveedores_regional (df_proveedores_fillna catRaw)) ++
    df_pedidos_proveedores_nacional (df_pedidos_zonas pedidos zonas)
      (df_proveedores_nacional (df_proveedores_fillna catRaw))

/-- A candidate row with the total of lines 444-448:
`precio_total_vendedor = unidades_pedidas * precio_vendedor`. -/
structure CandidateRowT extends CandidateRow where
  precio_total_vendedor : ℚ
deriving DecidableEq

/-- Lines 444-448. -/
def add_precio_total (l : List CandidateRow) : List CandidateRowT :=
  l.map (fun r => ⟨r, r.unidades_pedidas * r.precio_vendedor⟩)

/-! ### Local minimum prices (lines 464-479)

`min_prices` groups by `(point_of_sale_id, order_id, super_catalog_id)`
and takes `min(precio_minimo)`; the result is left-merged back, adding the
column `precio_minimo_orders`. Each grouped key occurs exactly once in
`min_prices`, so the left merge attaches exactly one value per row. -/

/-- The `(point_of_sale_id, order_id, super_catalog_id)` key of line 467. -/
def claveLocal (r : CandidateRowT) : ℤ × ℤ × ℤ :=
  (r.point_of_sale_id, r.order_id, r.super_catalog_id)

/-- Lines 466-470: per-key minimum of `precio_minimo` (NaN-skipping, as
pandas `groupby.min`). -/
def min_prices (rows : List CandidateRowT) : List ((ℤ × ℤ × ℤ) × Option ℚ) :=
  ((rows.map claveLocal).dedup).map (fun k =>
    (k, minOptList ((rows.filter (fun r => decide (claveLocal r = k))).map
      (fun r => r.precio_minimo))))

/-- A candidate row with the merged `precio_minimo_orders` column of
lines 473-476. The classifier never reads this field. -/
structure CandidateRowM extends CandidateRowT where
  precio_minimo_orders : Option ℚ
deriving DecidableEq

/-- Lines 473-476: left merge of `min_prices` back onto the candidate
table on the grouped key. -/
def df_con_precios_minimos_local (rows : List CandidateRowT) :
    List CandidateRowM :=
  rows.map (fun r =>
    ⟨r, ((min_prices rows).find? (fun p => decide (p.1 = claveLocal r))).bind
      (fun p => p.2)⟩)

/-- The classifier is called at line 479 on the merged table. The merged
frame carries both `precio_vendedor` (the unit sell price of line 436) and
`precio_total_vendedor` (the total of line 445); the classifier reads the
column literally named `precio_vendedor` (lines 111 and 116), i.e. the
unit price. -/
instance : ClasifCols CandidateRowM where
  order_id r := r.order_id
  super_catalog_id r := r.super_catalog_id
  precio_minimo r := r.precio_minimo
  precio_vendedor r := some r.precio_vendedor

/-- Line 479: the classified table. -/
def df_clasificado_de (rows : List CandidateRowT) : ClasifDF CandidateRowM :=
  agregar_columna_clasificacion (df_con_precios_minimos_local rows)

/-! ### The vendor-status merge block (lines 450-461) and its guard

The block runs only under
`'vendor_id' in df.columns and 'point_of_sale_id' in df.columns`
(line 451). Whether a column named exactly `vendor_id` survives the
earlier joins is a schema question, so the pandas column-name handling is
modelled at the schema level: `merge_columns` reproduces how `pd.merge`
names the output columns (shared join keys kept once, other overlapping
names suffixed `_x`/`_y`). -/

/-- Output column names of `pd.merge(left, right, on=claves)`:
key columns appear once; non-key columns present on both sides get the
default suffixes `_x` and `_y`; everything else is unchanged. -/
def merge_columns (left right claves : List String) : List String :=
  left.map (fun c =>
      if c ∈ claves then c else if c ∈ right then c ++ "_x" else c) ++
    (right.filter (fun c => decide (c ∉ claves))).map
      (fun c => if c ∈ left then c ++ "_y" else c)

/-- The orders columns required by the interface contract
(`point_of_sale_id, order_id, super_catalog_id, unidades_pedidas,
precio_minimo, vendor_id`). -/
def ordersCols : List String :=
  ["point_of_sale_id", "order_id", "super_catalog_id", "unidades_pedidas",
   "precio_minimo", "vendor_id"]

/-- The vendor catalog columns required by the interface contract. -/
def catalogCols : List String :=
  ["vendor_id", "name", "super_catalog_id", "base_price", "percentage"]

/-- Columns of `df_pedidos_zonas` (line 412): the zone join only adds
`geo_zone`, its key `point_of_sale_id` being shared. -/
def pedidosZonasCols : List String :=
  merge_columns ordersCols ["point_of_sale_id", "geo_zone"]
    ["point_of_sale_id"]

/-- Columns of `df_pedidos_proveedores` after the catalog joins of lines
416-441 (both branches produce the same set; the regional join merges the
identically-named key `super_catalog_id` once, as pandas drops a
duplicated key column). -/
def pedidosProveedoresCols : List String :=
  merge_columns pedidosZonasCols catalogCols ["super_catalog_id"]

/-- The guard of line 451 deciding whether the rename-and-status-merge
block runs. -/
def status_merge_guard (cols : List String) : Bool :=
  decide ("vendor_id" ∈ cols) && decide ("point_of_sale_id" ∈ cols)

/-- A candidate row as it looks when the orders file carries NO
`vendor_id` column (the only situation in which the guard of line 451 can
hold): the catalog candidate's `vendor_id` survives unsuffixed. -/
structure CandidateRowSinIncumbente where
  point_of_sale_id : ℤ
  order_id : ℤ
  super_catalog_id : ℤ
  unidades_pedidas : ℚ
  precio_minimo : Option ℚ
  geo_zone : Option String
  vendor_id : ℤ
  name : String
  base_price : ℚ
  percentage : ℚ
  precio_vendedor : ℚ
  precio_total_vendedor : ℚ
deriving DecidableEq

/-- The same row after the rename of line 453
(`vendor_id` → `drug_manufacturer_id`). -/
structure CandidateRowRenombrado where
  point_of_sale_id : ℤ
  order_id : ℤ
  super_catalog_id : ℤ
  unidades_pedidas : ℚ
  precio_minimo : Option ℚ
  geo_zone : Option String
  drug_manufacturer_id : ℤ
  name : String
  base_price : ℚ
  percentage : ℚ
  precio_vendedor : ℚ
  precio_total_vendedor : ℚ
deriving DecidableEq

/-- Line 453: rename the column named `vendor_id` to
`drug_manufacturer_id`, all values untouched. -/
def rename_vendor_id (c : CandidateRowSinIncumbente) : CandidateRowRenombrado :=
  ⟨c.point_of_sale_id, c.order_id, c.super_catalog_id, c.unidades_pedidas,
   c.precio_minimo, c.geo_zone, c.vendor_id, c.name, c.base_price,
   c.percentage, c.precio_vendedor, c.precio_total_vendedor⟩

/-- A candidate row with the relation columns attached by the merge of
lines 456-461; `none` models the NaN a left join leaves when the point of
sale has no relation row. -/
structure RowConStatus extends CandidateRowRenombrado where
  vendor_id : Option ℤ
  status : Option ℤ
deriving DecidableEq

/-- Lines 456-461: left join of the candidate rows with
`df_vendors_pos[['point_of_sale_id', 'vendor_id', 'status']]` on
`point_of_sale_id` ALONE: every relation row of the point of sale is
attached to every candidate row of that point of sale, with no condition
on the relation's `vendor_id`. -/
def merge_vendor_pos (cands : List CandidateRowSinIncumbente)
    (rels : List VendorPosRel) : List RowConStatus :=
  cands.flatMap (fun c =>
    match rels.filter (fun t =>
      decide (t.point_of_sale_id = c.point_of_sale_id)) with
    | [] => [⟨rename_vendor_id c, none, none⟩]
    | ms => ms.map (fun t => ⟨rename_vendor_id c, some t.vendor_id, some t.status⟩))

/-! ### The aggregation-view sorts (lines 683-685 and 892-894)

The per-vendor and per-product summaries are sorted with
`sort_values(<savings column>, ascending=False)`. The embedding uses a
stable descending insertion sort; pandas' default quicksort promises the
same key ordering but no particular tie order. -/

/-- A `vendor_analysis` record (dict built at lines 670-681). -/
structure VendorAnalysisRow where
  vendorId : ℤ
  statusDesc : String
  productosUnicos : ℕ
  ordenesAfectadas : ℕ
  registrosConMejorPrecio : ℕ
  valorActualDrogueria : ℚ
  valorConVendor : ℚ
  ahorroPotencial : ℚ
  porcentajeAhorro : ℚ
  clasificacionOportunidad : String
deriving DecidableEq

/-- A `producto_analysis` record (dict built at lines 875-890). -/
structure ProductoAnalysisRow where
  productoId : ℤ
  ordenId : ℤ
  unidades : ℚ
  drogueriaId : ℤ
  precioUnitDrogueria : Option ℚ
  precioTotalDrogueria : ℚ
  opcionesVendors : ℕ
  mejorVendorId : ℤ
  statusMejorVendor : String
  precioUnitMejorVendor : ℚ
  precioTotalMejorVendor : ℚ
  ahorroConMejorVendor : ℚ
  porcentajeAhorro : ℚ
  tipoAhorro : String
deriving DecidableEq

/-- Inserts an element into a list already sorted descending on `key`,
after every element with a greater-or-equal key. -/
def insertDesc (key : α → ℚ) (x : α) : List α → List α
  | [] => [x]
  | y :: ys => if key y < key x then x :: y :: ys else y :: insertDesc key x ys

/-- Descending sort by `key` (insertion sort). -/
def sortDesc (key : α → ℚ) (l : List α) : List α :=
  l.foldr (insertDesc key) []

/-- Line 685: `df_vendor_analysis.sort_values('Ahorro Potencial',
ascending=False)`. -/
def sort_vendor_analysis (l : List VendorAnalysisRow) : List VendorAnalysisRow :=
  sortDesc (fun r => r.ahorroPotencial) l

/-- Line 894: `df_producto_analysis.sort_values('Ahorro con Mejor Vendor',
ascending=False)`. -/
def sort_producto_analysis (l : List ProductoAnalysisRow) :
    List ProductoAnalysisRow :=
  sortDesc (fun r => r.ahorroConMejorVendor) l

/-- Sorted-descending-by-key predicate on a list. -/
def SortedDescBy (key : α → ℚ) (l : List α) : Prop :=
  List.Chain' (fun a b => key b ≤ key a) l

/-! ### `load_and_process_data` (lines 363-512) and its error handling

File reads are modelled as `Except ReadErr table` values handed to the
function; raising is modelled by the `Except` being an error. The outer
`try`/`except` of lines 366/508-512 catches any error, prints a stack
trace (modelled as the returned `Option ReadErr` diagnostic) and returns
an empty placeholder `pd.DataFrame()` for all eight outputs. The inner
`try` of lines 375-378 catches only `FileNotFoundError` for the optional
`minimum_purchase.csv`, substituting an empty frame with columns
`['vendor_id', 'name', 'min_purchase']`; a malformed
`minimum_purchase.csv` is NOT caught there and propagates to the outer
handler. -/

/-- How a `pd.read_csv` call can fail. -/
inductive ReadErr where
  | fileNotFound
  | malformed
deriving DecidableEq

/-- The raw file-read results the pipeline consumes. -/
structure RawInputs where
  pos_address : Except ReadErr (List PosAddress)
  pedidos : Except ReadErr (List Pedido)
  proveedores : Except ReadErr (List ProveedorRaw)
  vendors_pos : Except ReadErr (List VendorPosRel)
  vendors_dm : Except ReadErr (List VendorDM)
  min_purchase : Except ReadErr (List MinPurchaseRow)

/-- Lines 76-87: `load_vendors_dm` catches every exception itself and
falls back to an empty frame with the expected schema, so its errors
never propagate. -/
def load_vendors_dm (inp : Except ReadErr (List VendorDM)) : List VendorDM :=
  match inp with
  | .error _ => []
  | .ok t => t

/-- Lines 487-488: `total_compra = unidades_pedidas * precio_minimo`
(NaN when `precio_minimo` is NaN). -/
def total_compra (p : Pedido) : Option ℚ :=
  p.precio_minimo.map (fun m => p.unidades_pedidas * m)

/-- A NaN-skipping column sum, as pandas `groupby.sum()`. -/
def sumOpt (l : List (Option ℚ)) : ℚ :=
  (l.filterMap id).foldl (· + ·) 0

/-- Lines 501-504: `total_compra` summed per
`(point_of_sale_id, vendor_id)`. Group-key sort order is not modelled;
no claim depends on it. -/
def pos_vendor_totals_de (pedidos : List Pedido) : List (ℤ × ℤ × ℚ) :=
  ((pedidos.map (fun p => (p.point_of_sale_id, p.vendor_id))).dedup).map
    (fun k => (k.1, k.2, sumOpt ((pedidos.filter (fun p =>
      decide ((p.point_of_sale_id, p.vendor_id) = k))).map total_compra)))

/-- Lines 491-496: per-order totals, then mean and count per point of
sale. -/
def pos_order_stats_de (pedidos : List Pedido) : List (ℤ × ℚ × ℕ) :=
  let order_totals : List ((ℤ × ℤ) × ℚ) :=
    ((pedidos.map (fun p => (p.point_of_sale_id, p.order_id))).dedup).map
      (fun k => (k, sumOpt ((pedidos.filter (fun p =>
        decide ((p.point_of_sale_id, p.order_id) = k))).map total_compra)))
  ((order_totals.map (fun t => t.1.1)).dedup).map (fun pos =>
    let g := order_totals.filter (fun t => decide (t.1.1 = pos))
    (pos, (g.map (fun t => t.2)).sum / (g.length : ℚ), g.length))

/-- The eight tables returned at line 506. `df_min_purchase` keeps its
column-name list alongside its rows so that the empty-with-schema
substitution of line 378 is distinguishable from the bare
`pd.DataFrame()` placeholder of line 511. -/
structure Outputs where
  pos_vendor_totals : List (ℤ × ℤ × ℚ)
  df_pedidos : List Pedido
  pos_order_stats : List (ℤ × ℚ × ℕ)
  df_min_purchase : List String × List MinPurchaseRow
  df_vendor_dm : List VendorDM
  pos_geo_zones : List (ℤ × String)
  df_clasificado : ClasifDF CandidateRowM
  df_vendors_pos : List VendorPosRel

/-- Line 511: `empty_df = pd.DataFrame()` for every output. -/
def emptyOutputs : Outputs :=
  ⟨[], [], [], ([], []), [], [], ClasifDF.sinClasif [], []⟩

/-- The successful body of `load_and_process_data` (lines 380-506), with
all inputs already read. -/
def processCore (pa : List PosAddress) (pe : List Pedido)
    (pr : List ProveedorRaw) (vp : List VendorPosRel) (dm : List VendorDM)
    (mp : List String × List MinPurchaseRow) : Outputs :=
  let zonas := pos_geo_zones pa
  let dfpp := add_precio_total (df_pedidos_proveedores pe zonas pr)
  { pos_vendor_totals := pos_vendor_totals_de pe
    df_pedidos := pe
    pos_order_stats := pos_order_stats_de pe
    df_min_purchase := mp
    df_vendor_dm := dm
    pos_geo_zones := zonas
    df_clasificado := df_clasificado_de dfpp
    df_vendors_pos := vp }

/-- The schema substituted at line 378 when `minimum_purchase.csv` is
absent. -/
def minPurchaseCols : List String := ["vendor_id", "name", "min_purchase"]

/-- Embedding of `load_and_process_data` (lines 363-512). The second
component is the diagnostic printed by the outer handler (line 510):
`none` when the pipeline succeeded. -/
def load_and_process_data (inp : RawInputs) : Outputs × Option ReadErr :=
  match inp.pos_address with
  | .error e => (emptyOutputs, some e)
  | .ok pa =>
    match inp.pedidos with
    | .error e => (emptyOutputs, some e)
    | .ok pe =>
      match inp.proveedores with
      | .error e => (emptyOutputs, some e)
      | .ok pr =>
        match inp.vendors_pos with
        | .error e => (emptyOutputs, some e)
        | .ok vp =>
          let dm := load_vendors_dm inp.vendors_dm
          match inp.min_purchase with
          | .error .fileNotFound =>
            (processCore pa pe pr vp dm (minPurchaseCols, []), none)
          | .error .malformed => (emptyOutputs, some .malformed)
          | .ok mp => (processCore pa pe pr vp dm (minPurchaseCols, mp), none)

/-! ### A minimal concrete frame for checking the classifier -/

/-- A concrete row type carrying exactly the columns the classifier
checks for (plus `point_of_sale_id`, needed to compare against the
documented grouping key), used for concrete evaluations. -/
structure FilaTest where
  point_of_sale_id : ℤ
  order_id : ℤ
  super_catalog_id : ℤ
  precio_minimo : Option ℚ
  precio_vendedor : Option ℚ
deriving DecidableEq

instance : ClasifCols FilaTest where
  order_id r := r.order_id
  super_catalog_id r := r.super_catalog_id
  precio_minimo r := r.precio_minimo
  precio_vendedor r := r.precio_vendedor

/-- Modelled from the spec: the classifier as the specification describes
it — groups keyed by `(point_of_sale_id, order_id, super_catalog_id)` and
`incumbent_min` taken as the MINIMUM of `precio_minimo` over all rows of
the group. Stated only to be compared with the embedded
`agregar_columna_clasificacion`. -/
def clasificar_fila_spec (rows : List FilaTest) (r : FilaTest) : String :=
  let g := rows.filter (fun x =>
    decide ((x.point_of_sale_id, x.order_id, x.super_catalog_id) =
      (r.point_of_sale_id, r.order_id, r.super_catalog_id)))
  clasificar (minOptList (g.map (fun x => x.precio_minimo)))
    (minOptList (g.map (fun x => x.precio_vendedor))) r.precio_vendedor

/-- Modelled from the spec: whole-frame version of
`clasificar_fila_spec`. -/
def agregar_columna_clasificacion_spec (rows : List FilaTest) :
    ClasifDF FilaTest :=
  if rows.isEmpty then ClasifDF.sinClasif rows
  else ClasifDF.conClasif (rows.map (fun r => (r, clasificar_fila_spec rows r)))

/-! ## Supporting lemmas -/

theorem splitCS_ne_nil (l : List Char) : splitCS l ≠ [] := by
  match l with
  | [] => simp [splitCS]
  | [c] => simp [splitCS]
  | c :: d :: rest =>
    by_cases h : c = ',' ∧ d = ' '
    · simp [splitCS, h]
    · simp only [splitCS, if_neg h]
      cases hs : splitCS (d :: rest) with
      | nil => simp [consHead]
      | cons a t => simp [consHead]

/-- A string without any occurrence of the separator splits into itself. -/
theorem splitCS_no_sep (s : List Char) (h : containsSep s = false) :
    splitCS s = [s] := by
  match s with
  | [] => simp [splitCS]
  | [c] => simp [splitCS]
  | c :: d :: rest =>
    simp only [containsSep, Bool.or_eq_false_iff, decide_eq_false_iff_not] at h
    have ih := splitCS_no_sep (d :: rest) h.2
    simp [splitCS, if_neg h.1, ih, consHead]

/-- Splitting a string of the form `a ++ ", " ++ b` where `a` contains no
separator cuts off exactly `a` as the first piece. -/
theorem splitCS_append_sep (a b : List Char) (h : containsSep a = false) :
    splitCS (a ++ ',' :: ' ' :: b) = a :: splitCS b := by
  match a with
  | [] => simp [splitCS]
  | [c] =>
    have hcs : ¬ (c = ',' ∧ ',' = ' ') := by
      intro hc
      exact absurd hc.2 (by decide)
    simp [splitCS, if_neg hcs, consHead]
  | c :: d :: a' =>
    simp only [containsSep, Bool.or_eq_false_iff, decide_eq_false_iff_not] at h
    have ih := splitCS_append_sep (d :: a') b h.2
    simp only [List.cons_append] at ih ⊢
    rw [splitCS, if_neg h.1, ih, consHead]

/-- Round trip: joining separator-free segments and splitting again
recovers the segments. -/
theorem splitCS_joinCS (segs : List (List Char)) (hne : segs ≠ [])
    (hs : ∀ s ∈ segs, containsSep s = false) :
    splitCS (joinCS segs) = segs := by
  match segs with
  | [s] =>
    simpa [joinCS] using splitCS_no_sep s (hs s (by simp))
  | s :: s₂ :: rest =>
    have ih := splitCS_joinCS (s₂ :: rest) (by simp)
      (fun x hx => hs x (List.mem_cons_of_mem s hx))
    have hsep := splitCS_append_sep s (joinCS (s₂ :: rest)) (hs s (by simp))
    calc splitCS (joinCS (s :: s₂ :: rest))
        = splitCS (s ++ ',' :: ' ' :: joinCS (s₂ :: rest)) := by rfl
      _ = s :: splitCS (joinCS (s₂ :: rest)) := hsep
      _ = s :: s₂ :: rest := by rw [ih]

theorem asignar_grupo_map [ClasifCols α] (rows : List α) (f : α → String)
    (k : ℤ × ℤ) :
    asignar_grupo rows (rows.map (fun r => (r, f r))) k =
      rows.map (fun r =>
        (r, if clave r = k then clasificar_fila rows r else f r)) := by
  unfold asignar_grupo
  rw [List.map_map]
  refine List.map_congr_left ?_
  intro r _
  by_cases h : clave r = k
  · simp only [Function.comp_apply, h, if_pos rfl]
    subst h
    rfl
  · simp [Function.comp_apply, h]

theorem foldl_asignar_grupo [ClasifCols α] (rows : List α) (ks : List (ℤ × ℤ))
    (f : α → String) :
    ks.foldl (asignar_grupo rows) (rows.map (fun r => (r, f r))) =
      rows.map (fun r =>
        (r, if clave r ∈ ks then clasificar_fila rows r else f r)) := by
  induction ks generalizing f with
  | nil => simp
  | cons k ks ih =>
    rw [List.foldl_cons, asignar_grupo_map,
      ih (fun r => if clave r = k then clasificar_fila rows r else f r)]
    refine List.map_congr_left ?_
    intro r _
    by_cases h1 : clave r ∈ ks <;> by_cases h2 : clave r = k <;>
      simp [h1, h2]

/-- Characterisation of the classifier on a non-empty frame: every row is
paired with the classification computed from its
`(order_id, super_catalog_id)` group. -/
theorem agregar_columna_clasificacion_eq_map [ClasifCols α] (rows : List α)
    (h : rows ≠ []) :
    agregar_columna_clasificacion rows =
      ClasifDF.conClasif (rows.map (fun r => (r, clasificar_fila rows r))) := by
  unfold agregar_columna_clasificacion
  rw [if_neg (by simpa using h)]
  rw [foldl_asignar_grupo rows ((rows.map clave).dedup) (fun _ => "")]
  refine congrArg _ (List.map_congr_left ?_)
  intro r hr
  rw [if_pos (by exact List.mem_dedup.mpr (List.mem_map_of_mem clave hr))]

/-- The classification rule always produces one of the three labels. -/
theorem clasificar_mem_labels (pm mv pv : Option ℚ) :
    clasificar pm mv pv = "Precio droguería minimo" ∨
      clasificar pm mv pv = "Precio vendor minimo" ∨
      clasificar pm mv pv = "Precio vendor no minimo" := by
  unfold clasificar
  by_cases h1 : ltOpt pm pv = true
  · simp [h1]
  · by_cases h2 : eqOpt pv mv = true <;>
      simp [Bool.eq_false_iff.mpr h1, h2]

/-- A NaN `precio_vendedor` always classifies "Precio vendor no minimo":
both comparisons of lines 118 and 121 are false on NaN. -/
theorem clasificar_nan (pm mv : Option ℚ) :
    clasificar pm mv none = "Precio vendor no minimo" := by
  unfold clasificar
  cases pm <;> cases mv <;> rfl

theorem insertDesc_sorted (key : α → ℚ) (x : α) (l : List α)
    (h : SortedDescBy key l) : SortedDescBy key (insertDesc key x l) := by
  induction l with
  | nil => simp [insertDesc, SortedDescBy]
  | cons y ys ih =>
    unfold insertDesc
    by_cases hk : key y < key x
    · rw [if_pos hk]
      exact List.chain'_cons.mpr ⟨le_of_lt hk, h⟩
    · rw [if_neg hk]
      have hparts := List.chain'_cons'.mp h
      refine List.chain'_cons'.mpr ⟨?_, ih hparts.2⟩
      intro b hb
      cases ys with
      | nil =>
        simp [insertDesc] at hb
        rw [← hb]
        exact le_of_not_lt hk
      | cons z zs =>
        unfold insertDesc at hb
        by_cases hz : key z < key x
        · rw [if_pos hz] at hb
          simp at hb
          rw [← hb]
          exact le_of_not_lt hk
        · rw [if_neg hz] at hb
          simp at hb
          rw [← hb]
          exact hparts.1 z rfl

theorem insertDesc_perm (key : α → ℚ) (x : α) (l : List α) :
    (insertDesc key x l).Perm (x :: l) := by
  induction l with
  | nil => simp [insertDesc]
  | cons y ys ih =>
    unfold insertDesc
    by_cases hk : key y < key x
    · rw [if_pos hk]
    · rw [if_neg hk]
      exact (ih.cons y).trans (List.Perm.swap x y ys)

theorem sortDesc_sorted (key : α → ℚ) (l : List α) :
    SortedDescBy key (sortDesc key l) := by
  induction l with
  | nil => simp [sortDesc, SortedDescBy]
  | cons y ys ih => exact insertDesc_sorted key y _ ih

theorem sortDesc_perm (key : α → ℚ) (l : List α) :
    (sortDesc key l).Perm l := by
  induction l with
  | nil => simp [sortDesc]
  | cons y ys ih =>
    exact (insertDesc_perm key y (sortDesc key ys)).trans (ih.cons y)

/-! ## Claim theorems -/

/-- C6: for every address formatted as `", "`-separated segments the
geo-zone resolver returns the second-to-last segment (which needs no
further trimming when the segments carry no surrounding spaces), and for
every address with fewer than 2 segments — i.e. no occurrence of the
separator — it returns the empty string without error. The embedding is a
total pure function, so determinism and freedom from side effects hold by
construction. -/
theorem obtener_geo_zone_segundo_a_ultimo :
    (∀ (segs : List (List Char)) (h2 : 2 ≤ segs.length),
      (∀ s ∈ segs, containsSep s = false) →
      obtener_geo_zone (joinCS segs) = segs.get ⟨segs.length - 2, by omega⟩ ∧
      ((∀ s ∈ segs, trimChars s = s) →
        trimChars (obtener_geo_zone (joinCS segs)) =
          obtener_geo_zone (joinCS segs))) ∧
    (∀ addr : List Char, containsSep addr = false →
      obtener_geo_zone addr = []) := by
  constructor
  · intro segs h2 hs
    have hne : segs ≠ [] := by
      intro hnil
      rw [hnil] at h2
      simp at h2
    have hsplit := splitCS_joinCS segs hne hs
    have hmain : obtener_geo_zone (joinCS segs) =
        segs.get ⟨segs.length - 2, by omega⟩ := by
      show joinCS (sliceSecondToLast (splitCS (joinCS segs))) = _
      rw [hsplit, sliceSecondToLast, dif_pos h2]
      rfl
    refine ⟨hmain, fun htrim => ?_⟩
    rw [hmain]
    exact htrim _ (segs.get_mem (segs.length - 2) (by omega))
  · intro addr h
    show joinCS (sliceSecondToLast (splitCS addr)) = []
    rw [splitCS_no_sep addr h, sliceSecondToLast, dif_neg (by simp)]
    rfl

/-- C6 witness: the spec's own examples — the second-to-last segment of
"123 Main St, Springfield, Jal., MX" is "Jal.", and the one-segment
address "Downtown" resolves to the empty string. -/
theorem obtener_geo_zone_segundo_a_ultimo_witness :
    obtener_geo_zone
        (joinCS ["123 Main St".data, "Springfield".data, "Jal.".data,
          "MX".data]) = "Jal.".data ∧
    obtener_geo_zone "Downtown".data = [] := by
  constructor
  · have h := obtener_geo_zone_segundo_a_ultimo.1
      ["123 Main St".data, "Springfield".data, "Jal.".data, "MX".data]
      (by decide) (by decide)
    rw [h.1]
    rfl
  · exact obtener_geo_zone_segundo_a_ultimo.2 "Downtown".data (by decide)

/-- C7 counterexample: the abbreviation table does not have 29 entries —
it has 30 (the claim's count misses one key). -/
theorem abreviaturas_no_tiene_29_entradas_cex : abreviaturas.length ≠ 29 := by
  decide

/-- C7 (amended: the table has exactly 30 entries, not 29): the table has
30 entries, is applied by exact whole-string replacement (e.g. "Jal." is
replaced by "Jalisco"), and any zone matching no key passes through
unchanged. -/
theorem abreviaturas_reemplazo_exacto :
    abreviaturas.length = 30 ∧
    reemplazar_abreviatura "Jal." = "Jalisco" ∧
    ∀ z : String, (∀ p ∈ abreviaturas, p.1 ≠ z) →
      reemplazar_abreviatura z = z := by
  refine ⟨by decide, by decide, fun z hz => ?_⟩
  unfold reemplazar_abreviatura
  have hfind : abreviaturas.find? (fun p => decide (p.1 = z)) = none :=
    List.find?_eq_none.mpr (fun x hx => by simpa using hz x hx)
  rw [hfind]

/-- C7 witness: "Oaxaca" matches no key of the table and passes through
unchanged. -/
theorem abreviaturas_reemplazo_exacto_witness :
    reemplazar_abreviatura "Oaxaca" = "Oaxaca" :=
  abreviaturas_reemplazo_exacto.2.2 "Oaxaca" (by decide)

/-- C1 counterexample: a group with two duplicate incumbent entries whose
`precio_minimo` differ (100 on the first row, 50 on the second, both with
vendor price 90). The code takes the FIRST row's 100 as the incumbent
reference (100 < 90 fails, so both rows classify vendor-side), while the
claimed min-based classifier takes min(100, 50) = 50 < 90 and labels both
rows "Precio droguería minimo". The two outputs differ. -/
theorem clasificacion_ignora_minimo_del_grupo_cex :
    agregar_columna_clasificacion
        [(⟨1, 1, 1, some 100, some 90⟩ : FilaTest), ⟨1, 1, 1, some 50, some 90⟩] =
      ClasifDF.conClasif
        [(⟨1, 1, 1, some 100, some 90⟩, "Precio vendor minimo"),
         (⟨1, 1, 1, some 50, some 90⟩, "Precio vendor minimo")] ∧
    agregar_columna_clasificacion_spec
        [⟨1, 1, 1, some 100, some 90⟩, ⟨1, 1, 1, some 50, some 90⟩] =
      ClasifDF.conClasif
        [(⟨1, 1, 1, some 100, some 90⟩, "Precio droguería minimo"),
         (⟨1, 1, 1, some 50, some 90⟩, "Precio droguería minimo")] ∧
    agregar_columna_clasificacion
        [(⟨1, 1, 1, some 100, some 90⟩ : FilaTest), ⟨1, 1, 1, some 50, some 90⟩] ≠
      agregar_columna_clasificacion_spec
        [⟨1, 1, 1, some 100, some 90⟩, ⟨1, 1, 1, some 50, some 90⟩] := by
  refine ⟨by decide, by decide, by decide⟩

/-- C1 (amended: the classifier groups by `(order_id, super_catalog_id)`
only — the point of sale is NOT part of the key — and uses as the group's
incumbent reference the `precio_minimo` of the group's FIRST row in frame
order, not the group minimum; the per-(pos, order, product) minimum is
computed into the separate column `precio_minimo_orders`, which the
classifier never reads): every row of a non-empty frame receives the label
computed from the first `precio_minimo` and the minimum `precio_vendedor`
of its `(order_id, super_catalog_id)` group. -/
theorem clasificacion_agrupa_orden_producto_primer_minimo [ClasifCols α]
    (rows : List α) (h : rows ≠ []) :
    agregar_columna_clasificacion rows =
      ClasifDF.conClasif (rows.map (fun r =>
        (r, clasificar (primer_precio_minimo (grupo rows r))
          (minOptList ((grupo rows r).map ClasifCols.precio_vendedor))
          (ClasifCols.precio_vendedor r)))) :=
  agregar_columna_clasificacion_eq_map rows h

/-- C1 witness: two rows of the same order and product at DIFFERENT
points of sale form one group; the group reference is the first row's
`precio_minimo` (100) and the group vendor minimum (80) is shared across
the two points of sale. -/
theorem clasificacion_agrupa_orden_producto_primer_minimo_witness :
    agregar_columna_clasificacion
        [(⟨1, 1, 1, some 100, some 90⟩ : FilaTest), ⟨2, 1, 1, some 50, some 80⟩] =
      ClasifDF.conClasif
        [(⟨1, 1, 1, some 100, some 90⟩, "Precio vendor no minimo"),
         (⟨2, 1, 1, some 50, some 80⟩, "Precio vendor minimo")] := by
  rw [clasificacion_agrupa_orden_producto_primer_minimo _ (by decide)]
  decide

/-- C2 counterexample: the classifier compares the unit price column
`precio_vendedor`, not the total `precio_total_vendedor`. A single-row
group with 10 units, incumbent `precio_minimo` 100 and unit vendor price
50 has vendor TOTAL 500; the claim's rule (incumbent_min = 100 < total =
500) would label it "Precio droguería minimo", but the code compares
100 < 50, which fails, and labels it "Precio vendor minimo". -/
theorem clasificador_compara_precio_unitario_cex :
    add_precio_total
        [(⟨1, 1, 1, 10, some 100, 7, some "Oaxaca", 2, "México", 50, 0, 50⟩ :
          CandidateRow)] =
      [⟨⟨1, 1, 1, 10, some 100, 7, some "Oaxaca", 2, "México", 50, 0, 50⟩, 500⟩] ∧
    df_clasificado_de (add_precio_total
        [(⟨1, 1, 1, 10, some 100, 7, some "Oaxaca", 2, "México", 50, 0, 50⟩ :
          CandidateRow)]) =
      ClasifDF.conClasif
        [(⟨⟨⟨1, 1, 1, 10, some 100, 7, some "Oaxaca", 2, "México", 50, 0, 50⟩,
            500⟩, some 100⟩, "Precio vendor minimo")] ∧
    ltOpt (some 100) (some 500) = true ∧
    "Precio vendor minimo" ≠ "Precio droguería minimo" := by
  have htot : add_precio_total
      [(⟨1, 1, 1, 10, some 100, 7, some "Oaxaca", 2, "México", 50, 0, 50⟩ :
        CandidateRow)] =
      [⟨⟨1, 1, 1, 10, some 100, 7, some "Oaxaca", 2, "México", 50, 0, 50⟩,
        500⟩] := by
    simp only [add_precio_total, List.map_cons, List.map_nil,
      CandidateRowT.mk.injEq]
    norm_num
  refine ⟨htot, ?_, by decide, by decide⟩
  rw [htot]
  decide

/-- C2 (amended: the rule compares the incumbent reference against the
row's UNIT vendor price — the column named `precio_vendedor` — and the
group minimum of that same unit price; the three-way structure and the
strict less-than tie rule are as claimed): in a group whose rows all carry
incumbent price `m`, a row with unit vendor price `vr` and group minimum
unit vendor price `vm` is labeled "Precio droguería minimo" exactly when
m < vr, else "Precio vendor minimo" exactly when vr = vm, else "Precio
vendor no minimo"; a tie m = vr never classifies incumbent-minimum. -/
theorem clasificacion_regla_tres_vias [ClasifCols α] (rows : List α) (r : α)
    (m vm vr : ℚ) (hmem : r ∈ rows)
    (hm : ∀ x ∈ rows, clave x = clave r → ClasifCols.precio_minimo x = some m)
    (hv : minOptList ((grupo rows r).map ClasifCols.precio_vendedor) = some vm)
    (hvr : ClasifCols.precio_vendedor r = some vr) :
    ∃ out, agregar_columna_clasificacion rows = ClasifDF.conClasif out ∧
      (r, if m < vr then "Precio droguería minimo"
          else if vr = vm then "Precio vendor minimo"
          else "Precio vendor no minimo") ∈ out ∧
      (m = vr →
        (if m < vr then "Precio droguería minimo"
         else if vr = vm then "Precio vendor minimo"
         else "Precio vendor no minimo") ≠ "Precio droguería minimo") := by
  have hne : rows ≠ [] := List.ne_nil_of_mem hmem
  refine ⟨_, agregar_columna_clasificacion_eq_map rows hne, ?_, ?_⟩
  · have hfila : clasificar_fila rows r =
        (if m < vr then "Precio droguería minimo"
         else if vr = vm then "Precio vendor minimo"
         else "Precio vendor no minimo") := by
      have hrg : r ∈ grupo rows r := by
        simp [grupo, List.mem_filter, hmem]
      cases hgl : grupo rows r with
      | nil =>
        rw [hgl] at hrg
        simp at hrg
      | cons x xs =>
        have hx : x ∈ grupo rows r := by
          rw [hgl]
          exact List.mem_cons_self x xs
        have hx2 := List.mem_filter.mp hx
        have hpmx : ClasifCols.precio_minimo x = some m :=
          hm x hx2.1 (by simpa using hx2.2)
        unfold clasificar_fila
        rw [hgl] at hv ⊢
        simp only [primer_precio_minimo]
        rw [hpmx, hv, hvr]
        unfold clasificar ltOpt eqOpt
        by_cases h1 : m < vr
        · simp [h1]
        · by_cases h2 : vr = vm <;> simp [h1, h2]
    rw [← hfila]
    exact List.mem_map_of_mem (fun r => (r, clasificar_fila rows r)) hmem
  · intro hmv
    rw [if_neg (by rw [hmv]; exact lt_irrefl vr)]
    by_cases h2 : vr = vm <;> simp [h2]

/-- C2 witness: the spec's example group — incumbent 100 with unit vendor
prices 90, 95, 110 (one unit each, so unit and total coincide): the
110-row classifies "Precio droguería minimo" since 100 < 110. -/
theorem clasificacion_regla_tres_vias_witness :
    ∃ out, agregar_columna_clasificacion
        [(⟨1, 1, 1, some 100, some 90⟩ : FilaTest), ⟨1, 1, 1, some 100, some 95⟩,
         ⟨1, 1, 1, some 100, some 110⟩] = ClasifDF.conClasif out ∧
      ((⟨1, 1, 1, some 100, some 110⟩ : FilaTest),
        "Precio droguería minimo") ∈ out := by
  obtain ⟨out, h1, h2, _⟩ := clasificacion_regla_tres_vias
    [(⟨1, 1, 1, some 100, some 90⟩ : FilaTest), ⟨1, 1, 1, some 100, some 95⟩,
     ⟨1, 1, 1, some 100, some 110⟩] ⟨1, 1, 1, some 100, some 110⟩
    100 90 110 (by decide) (by decide) (by decide) (by decide)
  refine ⟨out, h1, ?_⟩
  have : (if (100 : ℚ) < 110 then "Precio droguería minimo"
      else if (110 : ℚ) = 90 then "Precio vendor minimo"
      else "Precio vendor no minimo") = "Precio droguería minimo" := by
    norm_num
  rwa [this] at h2

/-- C10: on any non-empty frame with the four required columns the
classifier returns a frame where every row carries exactly one of the
three labels (in particular a NaN `precio_vendedor` always yields "Precio
vendor no minimo", both NaN comparisons being false), all pre-existing
columns and values are untouched, and an empty frame is returned as-is
with no `clasificacion` column. -/
theorem clasificacion_etiquetas_totales (α : Type) [ClasifCols α]
    (rows : List α) :
    (rows ≠ [] → ∃ out,
      agregar_columna_clasificacion rows = ClasifDF.conClasif out ∧
      out.map Prod.fst = rows ∧
      (∀ p ∈ out, p.2 = "Precio droguería minimo" ∨
        p.2 = "Precio vendor minimo" ∨ p.2 = "Precio vendor no minimo") ∧
      (∀ p ∈ out, ClasifCols.precio_vendedor p.1 = none →
        p.2 = "Precio vendor no minimo")) ∧
    agregar_columna_clasificacion ([] : List α) = ClasifDF.sinClasif [] := by
  constructor
  · intro h
    refine ⟨_, agregar_columna_clasificacion_eq_map rows h, ?_, ?_, ?_⟩
    · simp [Function.comp_def]
    · intro p hp
      obtain ⟨r, _, hpe⟩ := List.mem_map.mp hp
      rw [← hpe]
      exact clasificar_mem_labels _ _ _
    · intro p hp hnan
      obtain ⟨r, _, hpe⟩ := List.mem_map.mp hp
      rw [← hpe]
      rw [← hpe] at hnan
      simp only [clasificar_fila]
      rw [hnan]
      exact clasificar_nan _ _
  · rfl

/-- C10 witness: a one-row frame whose `precio_vendedor` is NaN is
classified "Precio vendor no minimo". -/
theorem clasificacion_etiquetas_totales_witness :
    ∃ out, agregar_columna_clasificacion
        [(⟨1, 1, 1, some 100, none⟩ : FilaTest)] = ClasifDF.conClasif out ∧
      ∀ p ∈ out, p.2 = "Precio vendor no minimo" := by
  obtain ⟨out, h1, h2, _, h4⟩ :=
    (clasificacion_etiquetas_totales FilaTest
      [(⟨1, 1, 1, some 100, none⟩ : FilaTest)]).1 (by decide)
  refine ⟨out, h1, fun p hp => h4 p hp ?_⟩
  have hp1 : p.1 ∈ out.map Prod.fst := List.mem_map_of_mem Prod.fst hp
  rw [h2] at hp1
  have hpeq : p.1 = (⟨1, 1, 1, some 100, none⟩ : FilaTest) := by simpa using hp1
  rw [hpeq]
  rfl

/-- C3: for an order line with a resolved geo zone `z` and
`unidades_pedidas > 0`, the candidate-offer table holds exactly one row
per national catalog entry for the ordered product (zone ignored) plus
exactly one row per regional catalog entry for the product whose zone
label `name` equals `z`, and no row for a regional entry of any other
zone; an order line with `unidades_pedidas ≤ 0` contributes no rows. -/
theorem enriquecimiento_fan_out (p : Pedido) (zonas : List (ℤ × String))
    (catRaw : List ProveedorRaw) (z : String)
    (hz : zonas.filter (fun t => decide (t.1 = p.point_of_sale_id)) =
      [(p.point_of_sale_id, z)]) :
    (0 < p.unidades_pedidas →
      df_pedidos_proveedores [p] zonas catRaw =
        ((df_proveedores_regional (df_proveedores_fillna catRaw)).filter
            (fun c => decide (c.super_catalog_id = p.super_catalog_id ∧
              z = c.name))).map (mkCandidate ⟨p, some z⟩) ++
          ((df_proveedores_nacional (df_proveedores_fillna catRaw)).filter
            (fun c => decide (c.super_catalog_id = p.super_catalog_id))).map
            (mkCandidate ⟨p, some z⟩) ∧
      (df_pedidos_proveedores [p] zonas catRaw).length =
        ((df_proveedores_regional (df_proveedores_fillna catRaw)).filter
            (fun c => decide (c.super_catalog_id = p.super_catalog_id ∧
              z = c.name))).length +
          ((df_proveedores_nacional (df_proveedores_fillna catRaw)).filter
            (fun c => decide (c.super_catalog_id = p.super_catalog_id))).length) ∧
    (p.unidades_pedidas ≤ 0 → df_pedidos_proveedores [p] zonas catRaw = []) := by
  have hpz : df_pedidos_zonas [p] zonas =
      if 0 < p.unidades_pedidas then [⟨p, some z⟩] else [] := by
    unfold df_pedidos_zonas
    rw [List.flatMap_cons, List.flatMap_nil, List.append_nil, hz]
    by_cases hu : 0 < p.unidades_pedidas <;>
      simp [List.filter, hu]
  constructor
  · intro hu
    have hpz2 : df_pedidos_zonas [p] zonas = [⟨p, some z⟩] := by
      rw [hpz, if_pos hu]
    have hreg : df_pedidos_proveedores_regional [⟨p, some z⟩]
        (df_proveedores_regional (df_proveedores_fillna catRaw)) =
        ((df_proveedores_regional (df_proveedores_fillna catRaw)).filter
          (fun c => decide (c.super_catalog_id = p.super_catalog_id ∧
            z = c.name))).map (mkCandidate ⟨p, some z⟩) := by
      unfold df_pedidos_proveedores_regional
      rw [List.flatMap_cons, List.flatMap_nil, List.append_nil]
      rw [List.filter_eq_self.mpr ?_]
      · exact congrArg _ (List.filter_congr (fun c _ => by
          simp [Option.some.injEq]))
      · intro r hr
        obtain ⟨c, _, hc⟩ := List.mem_map.mp hr
        rw [← hc]
        simpa [mkCandidate] using hu
    have hnac : df_pedidos_proveedores_nacional [⟨p, some z⟩]
        (df_proveedores_nacional (df_proveedores_fillna catRaw)) =
        ((df_proveedores_nacional (df_proveedores_fillna catRaw)).filter
          (fun c => decide (c.super_catalog_id = p.super_catalog_id))).map
          (mkCandidate ⟨p, some z⟩) := by
      unfold df_pedidos_proveedores_nacional
      rw [List.flatMap_cons, List.flatMap_nil, List.append_nil]
      exact List.filter_eq_self.mpr (fun r hr => by
        obtain ⟨c, _, hc⟩ := List.mem_map.mp hr
        rw [← hc]
        simpa [mkCandidate] using hu)
    have hmain : df_pedidos_proveedores [p] zonas catRaw =
        ((df_proveedores_regional (df_proveedores_fillna catRaw)).filter
            (fun c => decide (c.super_catalog_id = p.super_catalog_id ∧
              z = c.name))).map (mkCandidate ⟨p, some z⟩) ++
          ((df_proveedores_nacional (df_proveedores_fillna catRaw)).filter
            (fun c => decide (c.super_catalog_id = p.super_catalog_id))).map
            (mkCandidate ⟨p, some z⟩) := by
      unfold df_pedidos_proveedores
      rw [hpz2, hreg, hnac]
    refine ⟨hmain, ?_⟩
    rw [hmain]
    simp
  · intro hu
    have hpz2 : df_pedidos_zonas [p] zonas = [] := by
      rw [hpz, if_neg (not_lt.mpr hu)]
    unfold df_pedidos_proveedores df_pedidos_proveedores_regional
      df_pedidos_proveedores_nacional
    rw [hpz2]
    rfl

/-- C3 witness: the spec's fan-out example — a product ordered in zone
"Oaxaca" with 2 national vendors, 1 regional vendor for "Oaxaca" and 1
regional vendor for "Puebla" yields exactly 3 candidate rows. -/
theorem enriquecimiento_fan_out_witness :
    (0 : ℚ) < 2 ∧
    (df_pedidos_proveedores
        [⟨1, 1, 7, 2, some 100, 9⟩] [(1, "Oaxaca")]
        [⟨11, "México", 7, 10, some 0⟩, ⟨12, "México", 7, 20, none⟩,
         ⟨13, "Oaxaca", 7, 30, some 0⟩, ⟨14, "Puebla", 7, 40, some 0⟩]).length =
      3 := by
  refine ⟨by norm_num, ?_⟩
  have h := (enriquecimiento_fan_out ⟨1, 1, 7, 2, some 100, 9⟩ [(1, "Oaxaca")]
    [⟨11, "México", 7, 10, some 0⟩, ⟨12, "México", 7, 20, none⟩,
     ⟨13, "Oaxaca", 7, 30, some 0⟩, ⟨14, "Puebla", 7, 40, some 0⟩]
    "Oaxaca" (by decide)).1 (by norm_num)
  rw [h.2]
  decide

/-- C4: every filled catalog row with `name = "México"` is in the
National subset and every other row in the Regional subset; a missing
percentage is replaced by 0 before pricing; every candidate row's unit
sell price is `base_price + base_price * percentage / 100`; and a row
with `base_price = 100` and NaN percentage prices at exactly 100. -/
theorem catalogo_particion_y_precio :
    (∀ (l : List Proveedor) (c : Proveedor),
      (c ∈ df_proveedores_nacional l ↔ c ∈ l ∧ c.name = "México") ∧
      (c ∈ df_proveedores_regional l ↔ c ∈ l ∧ c.name ≠ "México")) ∧
    (∀ r : ProveedorRaw, r.percentage = none →
      (fillna_percentage r).percentage = 0) ∧
    (∀ (pedidos : List Pedido) (zonas : List (ℤ × String))
      (catRaw : List ProveedorRaw),
      ∀ row ∈ df_pedidos_proveedores pedidos zonas catRaw,
        row.precio_vendedor =
          row.base_price + row.base_price * row.percentage / 100) ∧
    (∀ q : PedidoZona,
      (mkCandidate q (fillna_percentage ⟨1, "Oaxaca", 1, 100, none⟩)).precio_vendedor
        = 100) := by
  refine ⟨?_, ?_, ?_, ?_⟩
  · intro l c
    constructor
    · simp [df_proveedores_nacional, List.mem_filter]
    · simp [df_proveedores_regional, List.mem_filter]
  · intro r hr
    simp [fillna_percentage, hr]
  · intro pedidos zonas catRaw row hrow
    rcases List.mem_append.mp hrow with hmem | hmem
    · obtain ⟨q, _, hq⟩ :=
        List.mem_flatMap.mp (List.mem_filter.mp hmem).1
      obtain ⟨c, _, hc⟩ := List.mem_map.mp hq
      rw [← hc]
      rfl
    · obtain ⟨q, _, hq⟩ :=
        List.mem_flatMap.mp (List.mem_filter.mp hmem).1
      obtain ⟨c, _, hc⟩ := List.mem_map.mp hq
      rw [← hc]
      rfl
  · intro q
    show (100 : ℚ) + 100 * ((none : Option ℚ).getD 0) / 100 = 100
    norm_num

/-- C4 witness: a `"México"` row is in the National subset, and the
NaN-percentage pricing rule at base price 100 evaluates to 100. -/
theorem catalogo_particion_y_precio_witness :
    (⟨1, "México", 2, 5, 3⟩ : Proveedor) ∈
      df_proveedores_nacional [⟨1, "México", 2, 5, 3⟩] ∧
    (fillna_percentage ⟨1, "Oaxaca", 1, 100, none⟩).percentage = 0 ∧
    (mkCandidate ⟨⟨1, 1, 1, 1, none, 1⟩, none⟩
      (fillna_percentage ⟨1, "Oaxaca", 1, 100, none⟩)).precio_vendedor = 100 :=
  ⟨((catalogo_particion_y_precio.1 [⟨1, "México", 2, 5, 3⟩]
      ⟨1, "México", 2, 5, 3⟩).1).mpr ⟨by decide, rfl⟩,
   catalogo_particion_y_precio.2.1 ⟨1, "Oaxaca", 1, 100, none⟩ rfl,
   catalogo_particion_y_precio.2.2.2 ⟨⟨1, 1, 1, 1, none, 1⟩, none⟩⟩

/-- C5 counterexample: with contract-conforming inputs (orders AND
catalog both carry a `vendor_id` column) the joins of lines 416-441
suffix the two vendor ids to `vendor_id_x`/`vendor_id_y`, so the merged
table has NO column named `vendor_id` and the guard of line 451 is false:
the rename of line 453 and the status merge of lines 456-461 never
execute, contradicting the claim that the rename and the merge happen. -/
theorem status_merge_codigo_muerto_cex :
    status_merge_guard pedidosProveedoresCols = false ∧
    "vendor_id_x" ∈ pedidosProveedoresCols ∧
    "vendor_id_y" ∈ pedidosProveedoresCols ∧
    "vendor_id" ∉ pedidosProveedoresCols := by
  decide

/-- C5 (amended: the rename-and-status-merge block of lines 450-461 runs
only when the candidate table still carries a column literally named
`vendor_id` together with `point_of_sale_id`; under the interface
contract the orders file has its own `vendor_id`, the catalog joins
suffix both to `vendor_id_x`/`vendor_id_y`, and the block is skipped
entirely — no status merge happens. When the block does run — orders
lacking `vendor_id` — the column it renames to `drug_manufacturer_id` is
the CATALOG CANDIDATE vendor id, the only `vendor_id` column present; the
merge then left-joins on `point_of_sale_id` alone, fanning every relation
row of the point of sale onto every candidate row with no filter equating
the relation's `vendor_id` with the candidate vendor id): guard
semantics, dead-guard under contract schemas, rename content, and the
full membership characterisation of the fan-out merge. -/
theorem status_merge_condicional_y_fan_out :
    status_merge_guard pedidosProveedoresCols = false ∧
    (∀ cols : List String, status_merge_guard cols = true ↔
      ("vendor_id" ∈ cols ∧ "point_of_sale_id" ∈ cols)) ∧
    (∀ c : CandidateRowSinIncumbente,
      (rename_vendor_id c).drug_manufacturer_id = c.vendor_id) ∧
    (∀ (cands : List CandidateRowSinIncumbente) (rels : List VendorPosRel)
      (x : RowConStatus), x ∈ merge_vendor_pos cands rels ↔
        ∃ c ∈ cands,
          ((∃ t ∈ rels, t.point_of_sale_id = c.point_of_sale_id ∧
            x = ⟨rename_vendor_id c, some t.vendor_id, some t.status⟩) ∨
           ((∀ t ∈ rels, t.point_of_sale_id ≠ c.point_of_sale_id) ∧
            x = ⟨rename_vendor_id c, none, none⟩))) := by
  refine ⟨by decide, ?_, fun c => rfl, ?_⟩
  · intro cols
    simp [status_merge_guard]
  · intro cands rels x
    unfold merge_vendor_pos
    rw [List.mem_flatMap]
    refine exists_congr (fun c => and_congr_right (fun _ => ?_))
    cases hf : rels.filter (fun t =>
        decide (t.point_of_sale_id = c.point_of_sale_id)) with
    | nil =>
      have hnone : ∀ t ∈ rels, t.point_of_sale_id ≠ c.point_of_sale_id := by
        intro t ht
        have := List.filter_eq_nil_iff.mp hf t ht
        simpa using this
      simp only [hf, List.mem_singleton]
      constructor
      · intro hx
        exact Or.inr ⟨hnone, hx⟩
      · rintro (⟨t, ht, hpos, _⟩ | ⟨_, hx⟩)
        · exact absurd hpos (hnone t ht)
        · exact hx
    | cons y ys =>
      have hmem : ∀ t, t ∈ y :: ys ↔
          (t ∈ rels ∧ t.point_of_sale_id = c.point_of_sale_id) := by
        intro t
        rw [← hf]
        simp [List.mem_filter]
      have hy := (hmem y).mp (List.mem_cons_self y ys)
      constructor
      · intro hx
        obtain ⟨t, ht, hxt⟩ := List.mem_map.mp hx
        have ht2 := (hmem t).mp ht
        exact Or.inl ⟨t, ht2.1, ht2.2, hxt.symm⟩
      · rintro (⟨t, ht, hpos, hx⟩ | ⟨hnone, _⟩)
        · exact List.mem_map.mpr ⟨t, (hmem t).mpr ⟨ht, hpos⟩, hx.symm⟩
        · exact absurd hy.2 (hnone y hy.1)

/-- C5 witness: the guard holds on a schema carrying both required
columns, and a candidate row of vendor 7 at point of sale 1 receives BOTH
relation rows of that point of sale (vendors 21 and 22), showing the
fan-out with no vendor-id equality filter and the candidate id preserved
under `drug_manufacturer_id`. -/
theorem status_merge_condicional_y_fan_out_witness :
    status_merge_guard ["vendor_id", "point_of_sale_id"] = true ∧
    (⟨⟨1, 1, 1, 1, none, none, 7, "México", 1, 0, 1, 1⟩, some 21, some 1⟩ :
        RowConStatus) ∈
      merge_vendor_pos [⟨1, 1, 1, 1, none, none, 7, "México", 1, 0, 1, 1⟩]
        [⟨21, 1, 1⟩, ⟨22, 1, 0⟩] ∧
    (⟨⟨1, 1, 1, 1, none, none, 7, "México", 1, 0, 1, 1⟩, some 22, some 0⟩ :
        RowConStatus) ∈
      merge_vendor_pos [⟨1, 1, 1, 1, none, none, 7, "México", 1, 0, 1, 1⟩]
        [⟨21, 1, 1⟩, ⟨22, 1, 0⟩] := by
  refine ⟨(status_merge_condicional_y_fan_out.2.1 _).mpr ⟨by decide, by decide⟩,
    (status_merge_condicional_y_fan_out.2.2.2 _ _ _).mpr ?_,
    (status_merge_condicional_y_fan_out.2.2.2 _ _ _).mpr ?_⟩
  · exact ⟨_, List.mem_singleton.mpr rfl,
      Or.inl ⟨⟨21, 1, 1⟩, by simp, rfl, rfl⟩⟩
  · exact ⟨_, List.mem_singleton.mpr rfl,
      Or.inl ⟨⟨22, 1, 0⟩, by simp, rfl, rfl⟩⟩

/-- C8 counterexample: the summaries are sorted by the SIGNED savings
value, not its absolute value. With one row of savings -100 and one of
savings 50, the sort puts 50 first, while a descending sort by absolute
value would put -100 first; the produced order is not sorted descending
by absolute value. -/
theorem sort_vendor_analysis_no_valor_absoluto_cex :
    sort_vendor_analysis
        [⟨1, "Activo", 1, 1, 1, 0, 100, -100, 0, "Oportunidad Baja"⟩,
         ⟨2, "Activo", 1, 1, 1, 100, 50, 50, 50, "Oportunidad Alta"⟩] =
      [⟨2, "Activo", 1, 1, 1, 100, 50, 50, 50, "Oportunidad Alta"⟩,
       ⟨1, "Activo", 1, 1, 1, 0, 100, -100, 0, "Oportunidad Baja"⟩] ∧
    ¬ SortedDescBy (fun r => |r.ahorroPotencial|)
        (sort_vendor_analysis
          [⟨1, "Activo", 1, 1, 1, 0, 100, -100, 0, "Oportunidad Baja"⟩,
           ⟨2, "Activo", 1, 1, 1, 100, 50, 50, 50, "Oportunidad Alta"⟩]) := by
  have h1 : sort_vendor_analysis
      [⟨1, "Activo", 1, 1, 1, 0, 100, -100, 0, "Oportunidad Baja"⟩,
       ⟨2, "Activo", 1, 1, 1, 100, 50, 50, 50, "Oportunidad Alta"⟩] =
      [⟨2, "Activo", 1, 1, 1, 100, 50, 50, 50, "Oportunidad Alta"⟩,
       ⟨1, "Activo", 1, 1, 1, 0, 100, -100, 0, "Oportunidad Baja"⟩] := by
    decide
  refine ⟨h1, ?_⟩
  rw [h1]
  simp only [SortedDescBy, List.chain'_cons, List.chain'_singleton, and_true]
  intro habs
  have h100 : |(-100 : ℚ)| = 100 := by norm_num
  have h50 : |(50 : ℚ)| = 50 := by norm_num
  rw [h100, h50] at habs
  norm_num at habs

/-- C8 (amended: both aggregation views are sorted descending by the
SIGNED potential-savings value — `sort_values(…, ascending=False)` on the
raw savings column, not its absolute value; the tie order of pandas'
default quicksort is not guaranteed stable, and this model fixes it as
the stable insertion order): both sorted outputs are descending in the
signed savings key and are permutations of their inputs. -/
theorem vistas_ordenadas_descendente_por_ahorro
    (lv : List VendorAnalysisRow) (lp : List ProductoAnalysisRow) :
    SortedDescBy (fun r => r.ahorroPotencial) (sort_vendor_analysis lv) ∧
    (sort_vendor_analysis lv).Perm lv ∧
    SortedDescBy (fun r => r.ahorroConMejorVendor)
      (sort_producto_analysis lp) ∧
    (sort_producto_analysis lp).Perm lp :=
  ⟨sortDesc_sorted _ lv, sortDesc_perm _ lv,
   sortDesc_sorted _ lp, sortDesc_perm _ lp⟩

/-- C9: if the optional `minimum_purchase.csv` is absent the loader
substitutes an empty table with columns `(vendor_id, name, min_purchase)`
and the pipeline continues exactly as if the file existed empty; whereas
a missing or malformed required input — or a MALFORMED optional file,
which the inner handler does not catch — fails the whole batch, returning
every output as an empty placeholder together with the logged diagnostic
(the stack-trace print of line 510, modelled as the returned
`Option ReadErr`). -/
theorem load_and_process_data_manejo_errores :
    (∀ (inp : RawInputs) (pa : List PosAddress) (pe : List Pedido)
      (pr : List ProveedorRaw) (vp : List VendorPosRel),
      inp.pos_address = .ok pa → inp.pedidos = .ok pe →
      inp.proveedores = .ok pr → inp.vendors_pos = .ok vp →
      inp.min_purchase = .error .fileNotFound →
      load_and_process_data inp =
        (processCore pa pe pr vp (load_vendors_dm inp.vendors_dm)
          (minPurchaseCols, []), none) ∧
      (load_and_process_data inp).1.df_min_purchase = (minPurchaseCols, []) ∧
      load_and_process_data inp =
        load_and_process_data { inp with min_purchase := .ok [] }) ∧
    (∀ inp : RawInputs,
      ((∃ e, inp.pos_address = .error e) ∨ (∃ e, inp.pedidos = .error e) ∨
       (∃ e, inp.proveedores = .error e) ∨ (∃ e, inp.vendors_pos = .error e) ∨
       inp.min_purchase = .error .malformed) →
      ∃ e, load_and_process_data inp = (emptyOutputs, some e)) := by
  constructor
  · intro inp pa pe pr vp h1 h2 h3 h4 h5
    obtain ⟨a, b, c, d, dm, mp⟩ := inp
    simp only at h1 h2 h3 h4 h5
    subst h1 h2 h3 h4 h5
    exact ⟨rfl, rfl, rfl⟩
  · intro inp h
    obtain ⟨a, b, c, d, dm, mp⟩ := inp
    simp only at h
    rcases h with ⟨e, he⟩ | ⟨e, he⟩ | ⟨e, he⟩ | ⟨e, he⟩ | he
    · subst he
      exact ⟨e, rfl⟩
    · subst he
      cases a with
      | error e1 => exact ⟨e1, rfl⟩
      | ok pa => exact ⟨e, rfl⟩
    · subst he
      cases a with
      | error e1 => exact ⟨e1, rfl⟩
      | ok pa =>
        cases b with
        | error e2 => exact ⟨e2, rfl⟩
        | ok pe => exact ⟨e, rfl⟩
    · subst he
      cases a with
      | error e1 => exact ⟨e1, rfl⟩
      | ok pa =>
        cases b with
        | error e2 => exact ⟨e2, rfl⟩
        | ok pe =>
          cases c with
          | error e3 => exact ⟨e3, rfl⟩
          | ok pr => exact ⟨e, rfl⟩
    · subst he
      cases a with
      | error e1 => exact ⟨e1, rfl⟩
      | ok pa =>
        cases b with
        | error e2 => exact ⟨e2, rfl⟩
        | ok pe =>
          cases c with
          | error e3 => exact ⟨e3, rfl⟩
          | ok pr =>
            cases d with
            | error e4 => exact ⟨e4, rfl⟩
            | ok vp => exact ⟨ReadErr.malformed, rfl⟩

/-- C9 witness: a concrete run with every required file read and the
optional file absent succeeds with the schema-bearing empty substitute,
and a concrete run with a malformed required file returns all-empty
placeholders plus a diagnostic. -/
theorem load_and_process_data_manejo_errores_witness :
    load_and_process_data
        ⟨.ok [], .ok [], .ok [], .ok [], .ok [], .error .fileNotFound⟩ =
      (processCore [] [] [] [] (load_vendors_dm (.ok []))
        (minPurchaseCols, []), none) ∧
    ∃ e, load_and_process_data
        ⟨.error .malformed, .ok [], .ok [], .ok [], .ok [], .ok []⟩ =
      (emptyOutputs, some e) :=
  ⟨(load_and_process_data_manejo_errores.1
      ⟨.ok [], .ok [], .ok [], .ok [], .ok [], .error .fileNotFound⟩
      [] [] [] [] rfl rfl rfl rfl rfl).1,
   load_and_process_data_manejo_errores.2
      ⟨.error .malformed, .ok [], .ok [], .ok [], .ok [], .ok []⟩
      (Or.inl ⟨.malformed, rfl⟩)⟩

end AppScoring
